import Mathlib

set_option autoImplicit false

/-! Shallow embedding of the claude-notifications delivery pipeline:
the per-session state manager (internal/state/state.go), the file-lock
deduplication manager (dedup package), and the webhook sender
orchestration (internal/webhook/webhook.go).

Filesystem and clock effects are made explicit: each operation takes the
stored record (or the observed lock-file age) and the current timestamp
as arguments, and results of the platform primitives AtomicCreateFile
and FileAge are passed in as observed outcomes.  Timestamps are epoch
seconds (Go int64), modelled as Int — the values involved are far below
any overflow boundary. -/

/-- Session status label from the analyzer package (Go: type Status string).
Modelled from the spec: the analyzer package itself is not in the sources;
status keys are taken from the docs table (docs/webhooks/README.md). -/
structure Status where
  val : String
deriving DecidableEq, Repr

def statusTaskComplete : Status := ⟨"task_complete"⟩

def statusPlanReady : Status := ⟨"plan_ready"⟩

def statusQuestion : Status := ⟨"question"⟩

def statusReviewComplete : Status := ⟨"review_complete"⟩

def statusSessionLimit : Status := ⟨"session_limit_reached"⟩

/-- SessionState, internal/state/state.go lines 15-24. -/
structure SessionState where
  sessionID : String
  lastInteractiveTool : String
  lastTimestamp : Int
  lastTaskCompleteTime : Int
  lastNotificationTime : Int
  lastNotificationStatus : String
  lastNotificationMessage : String
  cwd : String
deriving DecidableEq, Repr

/-- The record a state update starts from when no state file exists:
only SessionID is set (Go zero values elsewhere). -/
def emptySessionState (sessionID : String) : SessionState :=
  { sessionID := sessionID
    lastInteractiveTool := ""
    lastTimestamp := 0
    lastTaskCompleteTime := 0
    lastNotificationTime := 0
    lastNotificationStatus := ""
    lastNotificationMessage := ""
    cwd := "" }

/-- Manager.UpdateInteractiveTool: load the record (or start empty), set
the interactive-tool name, its timestamp and cwd, and save. -/
def updateInteractiveTool (sessionID toolName cwd : String) (now : Int)
    (stored : Option SessionState) : SessionState :=
  let st := stored.getD (emptySessionState sessionID)
  { st with lastInteractiveTool := toolName, lastTimestamp := now, cwd := cwd }

/-- Manager.UpdateTaskComplete: load the record (or start empty), stamp
the task-complete time, and save. -/
def updateTaskComplete (sessionID : String) (now : Int)
    (stored : Option SessionState) : SessionState :=
  let st := stored.getD (emptySessionState sessionID)
  { st with lastTaskCompleteTime := now }

/-- Manager.UpdateLastNotification: load the record (or start empty), set
the last-notification time, status string and message, and save. -/
def updateLastNotification (sessionID : String) (status : Status) (message : String)
    (now : Int) (stored : Option SessionState) : SessionState :=
  let st := stored.getD (emptySessionState sessionID)
  { st with lastNotificationTime := now
            lastNotificationStatus := status.val
            lastNotificationMessage := message }

/-- Manager.ShouldSuppressQuestion, state.go lines 134-153. -/
def shouldSuppressQuestion (stored : Option SessionState)
    (now cooldownSeconds : Int) : Bool :=
  if cooldownSeconds ≤ 0 then false
  else
    match stored with
    | none => false
    | some st =>
      if st.lastTaskCompleteTime = 0 then false
      else decide (now - st.lastTaskCompleteTime < cooldownSeconds)

/-- Manager.ShouldSuppressQuestionAfterAnyNotification, state.go lines
195-219: same cooldown test gated on the last-notification time. -/
def shouldSuppressQuestionAfterAnyNotification (stored : Option SessionState)
    (now cooldownSeconds : Int) : Bool :=
  if cooldownSeconds ≤ 0 then false
  else
    match stored with
    | none => false
    | some st =>
      if st.lastNotificationTime = 0 then false
      else decide (now - st.lastNotificationTime < cooldownSeconds)

/-- Manager.UpdateState, state.go lines 156-166: dispatch by status.
Result some st means the record st was saved; none means no write. -/
def updateState (sessionID : String) (status : Status) (toolName cwd : String)
    (now : Int) (stored : Option SessionState) : Option SessionState :=
  if status = statusTaskComplete then
    some (updateTaskComplete sessionID now stored)
  else if status = statusPlanReady ∨ status = statusQuestion then
    if toolName ≠ "" then
      some (updateInteractiveTool sessionID toolName cwd now stored)
    else none
  else none

/-- Go unicode.IsSpace, as used by strings.TrimSpace: ASCII whitespace
plus the Unicode space code points. -/
def goIsSpace (c : Char) : Bool :=
  c = ' ' || c = '\t' || c = '\n' || c.val = 0x0b || c.val = 0x0c || c = '\r' ||
  c.val = 0x85 || c.val = 0xa0 || c.val = 0x1680 ||
  (0x2000 ≤ c.val && c.val ≤ 0x200a) ||
  c.val = 0x2028 || c.val = 0x2029 || c.val = 0x202f || c.val = 0x205f ||
  c.val = 0x3000

/-- strings.TrimSpace: remove leading and trailing whitespace. -/
def trimSpaceGo (s : String) : String :=
  String.mk (((s.toList.dropWhile goIsSpace).reverse.dropWhile goIsSpace).reverse)

/-- strings.TrimRight with cutset ".": remove trailing literal periods. -/
def trimRightDots (s : String) : String :=
  String.mk ((s.toList.reverse.dropWhile (fun c => c = '.')).reverse)

/-- normalizeMessage, state.go lines 225-229: trim whitespace, strip
trailing periods, lowercase.  strings.ToLower is modelled on its ASCII
fragment (Char.toLower); every message the claims mention is ASCII. -/
def normalizeMessage (msg : String) : String :=
  String.mk ((trimRightDots (trimSpaceGo msg)).toList.map Char.toLower)

/-- Manager.IsDuplicateMessage, state.go lines 233-256. -/
def isDuplicateMessage (stored : Option SessionState) (now : Int)
    (message : String) (windowSeconds : Int) : Bool :=
  if windowSeconds ≤ 0 then false
  else
    match stored with
    | none => false
    | some st =>
      if st.lastNotificationTime = 0 ∨ st.lastNotificationMessage = "" then false
      else if now - st.lastNotificationTime > windowSeconds then false
      else normalizeMessage message == normalizeMessage st.lastNotificationMessage

/-- Outcome of one platform.AtomicCreateFile call, observed by the dedup
manager: the file was created, it already existed, or an I/O error. -/
inductive CreateResult where
  | created
  | alreadyExists
  | ioError (e : String)
deriving DecidableEq, Repr

/-- A lock acquisition's returned pair (acquired bool, error): ok b is
(b, nil), err e is (false, error e). -/
inductive LockResult where
  | ok (acquired : Bool)
  | err (e : String)
deriving DecidableEq, Repr

/-- What one lock-acquisition run did: its returned (acquired, error)
pair, how many AtomicCreateFile calls it made, and whether it removed an
existing lock file. -/
structure LockOutcome where
  result : LockResult
  createAttempts : Nat
  removedStale : Bool
deriving DecidableEq, Repr

/-- Manager.AcquireLock (dedup): first is the outcome of the initial
atomic create, age the FileAge of the existing lock (-1 when the mtime
is unreadable), second the outcome of the retry create in the stale
path. -/
def acquireLock (first : CreateResult) (age : Int)
    (second : CreateResult) : LockOutcome :=
  match first with
  | .ioError e =>
    { result := .err ("failed to create lock file: " ++ e)
      createAttempts := 1, removedStale := false }
  | .created => { result := .ok true, createAttempts := 1, removedStale := false }
  | .alreadyExists =>
    if 0 ≤ age ∧ age < 2 then
      { result := .ok false, createAttempts := 1, removedStale := false }
    else
      match second with
      | .ioError e =>
        { result := .err ("failed to create lock file after cleanup: " ++ e)
          createAttempts := 2, removedStale := true }
      | .created => { result := .ok true, createAttempts := 2, removedStale := true }
      | .alreadyExists =>
        { result := .ok false, createAttempts := 2, removedStale := true }

/-- Manager.CheckEarlyDuplicate (dedup): the lock-file observation is
none when the file is absent, some age with the FileAge result
otherwise (-1 when the mtime is unreadable). -/
def checkEarlyDuplicate (lockFile : Option Int) : Bool :=
  match lockFile with
  | none => false
  | some age => age == -1 || (decide (0 ≤ age) && decide (age < 2))

/-- Manager.AcquireContentLock (dedup): same shape as acquireLock but on
the sessionID + "content" key with a 5-second TTL. -/
def acquireContentLock (first : CreateResult) (age : Int)
    (second : CreateResult) : LockOutcome :=
  match first with
  | .ioError e =>
    { result := .err ("failed to create content lock file: " ++ e)
      createAttempts := 1, removedStale := false }
  | .created => { result := .ok true, createAttempts := 1, removedStale := false }
  | .alreadyExists =>
    if 0 ≤ age ∧ age < 5 then
      { result := .ok false, createAttempts := 1, removedStale := false }
    else
      match second with
      | .ioError e =>
        { result := .err ("failed to create content lock file after cleanup: " ++ e)
          createAttempts := 2, removedStale := true }
      | .created => { result := .ok true, createAttempts := 2, removedStale := true }
      | .alreadyExists =>
        { result := .ok false, createAttempts := 2, removedStale := true }

/-- Circuit-breaker state (webhook package): Closed, Open, Half-Open.
opn stands for StateOpen. -/
inductive CBState where
  | closed
  | opn
  | halfOpen
deriving DecidableEq, Repr

/-- Errors Send can return: the two sentinels plus wrapped messages. -/
inductive WebhookErr where
  | rateLimitExceeded
  | circuitOpen
  | errMsg (s : String)
deriving DecidableEq, Repr

/-- Outcome of Go url.Parse as far as validateURL inspects it: failure,
or the parsed scheme and host. -/
inductive URLParseResult where
  | failure
  | parsed (scheme host : String)
deriving DecidableEq, Repr

/-- validateURL, webhook.go lines 319-338: some message on rejection,
none on acceptance. -/
def validateURL (rawURL : String) (p : URLParseResult) : Option String :=
  if rawURL = "" then some "URL is empty"
  else
    match p with
    | .failure => some "invalid URL"
    | .parsed scheme host =>
      if scheme ≠ "http" ∧ scheme ≠ "https" then
        some "URL must use http or https scheme"
      else if host = "" then some "URL must have a host"
      else none

/-- What one sendWithRetryAndCircuitBreaker run did: returned error (none
on success), whether the retry operation was invoked, and whether an
HTTP request went out. -/
structure RetrySendOutcome where
  result : Option WebhookErr
  retryInvoked : Bool
  httpAttempted : Bool
deriving DecidableEq, Repr

/-- sendWithRetryAndCircuitBreaker, webhook.go lines 139-172.
payloadBuild is the buildPayload error (none on success); url and p feed
validateURL; innerResult and innerHttp are the observed outcome of the
breaker-wrapped retry execution once it is reached. -/
def sendWithRetryAndCircuitBreaker (payloadBuild : Option String)
    (url : String) (p : URLParseResult)
    (innerResult : Option WebhookErr) (innerHttp : Bool) : RetrySendOutcome :=
  match payloadBuild with
  | some e =>
    { result := some (.errMsg ("failed to build payload: " ++ e))
      retryInvoked := false, httpAttempted := false }
  | none =>
    match validateURL url p with
    | some e =>
      { result := some (.errMsg ("invalid webhook URL: " ++ e))
        retryInvoked := false, httpAttempted := false }
    | none =>
      { result := innerResult, retryInvoked := true, httpAttempted := innerHttp }

/-- What one Sender.Send run did: its returned error and which metric
records and network effects happened. -/
structure SendOutcome where
  result : Option WebhookErr
  recordedRateLimited : Bool
  recordedCircuitOpen : Bool
  recordedRequest : Bool
  recordedFailure : Bool
  recordedSuccess : Bool
  retryInvoked : Bool
  httpAttempted : Bool
deriving DecidableEq, Repr

/-- Sender.Send, webhook.go lines 90-136.  webhookEnabled is
cfg.IsWebhookEnabled(); limiterAllow is none when no rate limiter is
configured and some b when Allow() returned b; breakerState likewise for
the circuit breaker and GetState(). -/
def send (webhookEnabled : Bool) (limiterAllow : Option Bool)
    (breakerState : Option CBState) (payloadBuild : Option String)
    (url : String) (p : URLParseResult)
    (innerResult : Option WebhookErr) (innerHttp : Bool) : SendOutcome :=
  if webhookEnabled = false then
    { result := none, recordedRateLimited := false, recordedCircuitOpen := false
      recordedRequest := false, recordedFailure := false, recordedSuccess := false
      retryInvoked := false, httpAttempted := false }
  else if limiterAllow = some false then
    { result := some .rateLimitExceeded, recordedRateLimited := true
      recordedCircuitOpen := false, recordedRequest := false
      recordedFailure := false, recordedSuccess := false
      retryInvoked := false, httpAttempted := false }
  else if breakerState = some .opn then
    { result := some .circuitOpen, recordedRateLimited := false
      recordedCircuitOpen := true, recordedRequest := false
      recordedFailure := false, recordedSuccess := false
      retryInvoked := false, httpAttempted := false }
  else
    let inner := sendWithRetryAndCircuitBreaker payloadBuild url p innerResult innerHttp
    { result := inner.result, recordedRateLimited := false
      recordedCircuitOpen := false, recordedRequest := true
      recordedFailure := inner.result.isSome
      recordedSuccess := inner.result.isNone
      retryInvoked := inner.retryInvoked, httpAttempted := inner.httpAttempted }

/-- Lock-file name for a session and optional hook event, getLockPath
(dedup), without the temp-directory prefix. -/
def lockFileName (sessionID : String) (hookEvent : Option String) : String :=
  match hookEvent with
  | some ev =>
    if ev ≠ "" then "claude-notification-" ++ sessionID ++ "-" ++ ev ++ ".lock"
    else "claude-notification-" ++ sessionID ++ ".lock"
  | none => "claude-notification-" ++ sessionID ++ ".lock"

/-- Lock-file name used by AcquireContentLock and ReleaseContentLock,
without the temp-directory prefix. -/
def contentLockFileName (sessionID : String) : String :=
  "claude-notification-" ++ sessionID ++ "-content.lock"

/-- C10: every state update is frame-preserving on an existing record:
UpdateTaskComplete changes only the task-complete timestamp,
UpdateInteractiveTool only the interactive-tool name, its timestamp and
cwd, UpdateLastNotification only the last-notification timestamp, status
and message; none of them changes the session identifier. -/
theorem stateUpdates_frame (st : SessionState) (sid toolName cwd msg : String)
    (status : Status) (now : Int) :
    updateTaskComplete sid now (some st) = { st with lastTaskCompleteTime := now }
  ∧ updateInteractiveTool sid toolName cwd now (some st) =
      { st with lastInteractiveTool := toolName, lastTimestamp := now, cwd := cwd }
  ∧ updateLastNotification sid status msg now (some st) =
      { st with lastNotificationTime := now
                lastNotificationStatus := status.val
                lastNotificationMessage := msg }
  ∧ (updateTaskComplete sid now (some st)).sessionID = st.sessionID
  ∧ (updateInteractiveTool sid toolName cwd now (some st)).sessionID = st.sessionID
  ∧ (updateLastNotification sid status msg now (some st)).sessionID = st.sessionID
  ∧ (updateInteractiveTool sid toolName cwd now (some st)).lastTaskCompleteTime
      = st.lastTaskCompleteTime
  ∧ (updateInteractiveTool sid toolName cwd now (some st)).lastNotificationTime
      = st.lastNotificationTime
  ∧ (updateInteractiveTool sid toolName cwd now (some st)).lastNotificationStatus
      = st.lastNotificationStatus
  ∧ (updateInteractiveTool sid toolName cwd now (some st)).lastNotificationMessage
      = st.lastNotificationMessage :=
  ⟨rfl, rfl, rfl, rfl, rfl, rfl, rfl, rfl, rfl, rfl⟩

/-- C8: UpdateState dispatches exactly by status: task-complete invokes
UpdateTaskComplete; plan-ready or question with a non-empty tool name
invokes UpdateInteractiveTool; every other case performs no update. -/
theorem updateState_dispatch (sid toolName cwd : String) (status : Status)
    (now : Int) (stored : Option SessionState) :
    updateState sid statusTaskComplete toolName cwd now stored
      = some (updateTaskComplete sid now stored)
  ∧ (toolName ≠ "" →
      updateState sid statusPlanReady toolName cwd now stored
        = some (updateInteractiveTool sid toolName cwd now stored)
      ∧ updateState sid statusQuestion toolName cwd now stored
        = some (updateInteractiveTool sid toolName cwd now stored))
  ∧ updateState sid statusPlanReady "" cwd now stored = none
  ∧ updateState sid statusQuestion "" cwd now stored = none
  ∧ (status ≠ statusTaskComplete → status ≠ statusPlanReady →
      status ≠ statusQuestion →
      updateState sid status toolName cwd now stored = none) := by
  refine ⟨?_, fun h => ⟨?_, ?_⟩, ?_, ?_, fun h1 h2 h3 => ?_⟩
  · simp [updateState]
  · simp only [updateState]
    rw [if_neg (by decide), if_pos (by decide), if_pos h]
  · simp only [updateState]
    rw [if_neg (by decide), if_pos (by decide), if_pos h]
  · simp only [updateState]
    rw [if_neg (by decide), if_pos (by decide), if_neg (by decide)]
  · simp only [updateState]
    rw [if_neg (by decide), if_pos (by decide), if_neg (by decide)]
  · simp only [updateState]
    rw [if_neg h1, if_neg (fun h => h.elim h2 h3)]

/-- Witness for updateState_dispatch at concrete inputs. -/
theorem updateState_dispatch_witness :
    updateState "s1" statusTaskComplete "T" "/p" 100 none
      = some (updateTaskComplete "s1" 100 none)
  ∧ updateState "s1" statusPlanReady "ExitPlanMode" "/p" 100 none
      = some (updateInteractiveTool "s1" "ExitPlanMode" "/p" 100 none)
  ∧ updateState "s1" statusQuestion "" "/p" 100 none = none
  ∧ updateState "s1" statusReviewComplete "T" "/p" 100 none = none := by
  refine ⟨(updateState_dispatch "s1" "T" "/p" statusReviewComplete 100 none).1,
    ((updateState_dispatch "s1" "ExitPlanMode" "/p" statusReviewComplete 100
        none).2.1 (by decide)).1,
    (updateState_dispatch "s1" "T" "/p" statusReviewComplete 100 none).2.2.2.1,
    (updateState_dispatch "s1" "T" "/p" statusReviewComplete 100 none).2.2.2.2
      (by decide) (by decide) (by decide)⟩

/-- C4: ShouldSuppressQuestion is true iff the cooldown is positive, a
task-complete timestamp exists (record present with a non-zero
lastTaskCompleteTime), and less than cooldownSeconds have elapsed; a
non-positive cooldown always yields false, and it holds right after
UpdateTaskComplete for the same session. -/
theorem shouldSuppressQuestion_spec (stored : Option SessionState)
    (sid : String) (now cooldown : Int) :
    (shouldSuppressQuestion stored now cooldown = true ↔
      0 < cooldown ∧ ∃ st, stored = some st ∧ st.lastTaskCompleteTime ≠ 0 ∧
        now - st.lastTaskCompleteTime < cooldown)
  ∧ (cooldown ≤ 0 → shouldSuppressQuestion stored now cooldown = false)
  ∧ (0 < cooldown → 0 < now →
      shouldSuppressQuestion (some (updateTaskComplete sid now stored)) now
        cooldown = true) := by
  have hmain : ∀ s : Option SessionState,
      shouldSuppressQuestion s now cooldown = true ↔
        0 < cooldown ∧ ∃ st, s = some st ∧ st.lastTaskCompleteTime ≠ 0 ∧
          now - st.lastTaskCompleteTime < cooldown := by
    intro s
    unfold shouldSuppressQuestion
    by_cases hcd : cooldown ≤ 0
    · rw [if_pos hcd]
      simp only [Bool.false_eq_true, false_iff]
      rintro ⟨hpos, -⟩
      omega
    · rw [if_neg hcd]
      cases s with
      | none => simp
      | some st =>
        by_cases hz : st.lastTaskCompleteTime = 0
        · simp [hz]
        · simp only [hz, if_false, decide_eq_true_eq, ite_false]
          constructor
          · intro h
            exact ⟨by omega, st, rfl, hz, h⟩
          · rintro ⟨-, st', hst', -, hlt⟩
            cases hst'
            exact hlt
  refine ⟨hmain stored, fun hcd => ?_, fun hcd hnow => ?_⟩
  · unfold shouldSuppressQuestion
    rw [if_pos hcd]
  · refine (hmain _).mpr ⟨hcd, updateTaskComplete sid now stored, rfl, ?_, ?_⟩
    · show now ≠ 0
      omega
    · show now - now < cooldown
      omega

/-- Witness for shouldSuppressQuestion_spec at concrete inputs. -/
theorem shouldSuppressQuestion_spec_witness :
    shouldSuppressQuestion none 100 (-5) = false
  ∧ shouldSuppressQuestion (some (updateTaskComplete "id" 100 none)) 100 5
      = true := by
  exact ⟨(shouldSuppressQuestion_spec none "id" 100 (-5)).2.1 (by decide),
    (shouldSuppressQuestion_spec none "id" 100 5).2.2 (by decide) (by decide)⟩

/-- C5: ShouldSuppressQuestionAfterAnyNotification applies the cooldown
test gated on the last-notification timestamp, and holds in the
interactive-tool-then-notification scenario within the window. -/
theorem shouldSuppressAfterAnyNotification_spec (stored : Option SessionState)
    (now cooldown : Int) :
    (shouldSuppressQuestionAfterAnyNotification stored now cooldown = true ↔
      0 < cooldown ∧ ∃ st, stored = some st ∧ st.lastNotificationTime ≠ 0 ∧
        now - st.lastNotificationTime < cooldown)
  ∧ shouldSuppressQuestionAfterAnyNotification
      (some (updateLastNotification "s1" statusPlanReady "plan ready" 105
        (some (updateInteractiveTool "s1" "ExitPlanMode" "/proj" 100 none))))
      105 60 = true := by
  constructor
  · unfold shouldSuppressQuestionAfterAnyNotification
    by_cases hcd : cooldown ≤ 0
    · rw [if_pos hcd]
      simp only [Bool.false_eq_true, false_iff]
      rintro ⟨hpos, -⟩
      omega
    · rw [if_neg hcd]
      cases stored with
      | none => simp
      | some st =>
        by_cases hz : st.lastNotificationTime = 0
        · simp [hz]
        · simp only [hz, if_false, decide_eq_true_eq, ite_false]
          constructor
          · intro h
            exact ⟨by omega, st, rfl, hz, h⟩
          · rintro ⟨-, st', hst', -, hlt⟩
            cases hst'
            exact hlt
  · rfl

/-- Witness for shouldSuppressAfterAnyNotification_spec: the iff applied
at a concrete record inside the window. -/
theorem shouldSuppressAfterAnyNotification_spec_witness :
    shouldSuppressQuestionAfterAnyNotification
      (some (updateLastNotification "s1" statusPlanReady "plan ready" 105 none))
      110 60 = true :=
  (shouldSuppressAfterAnyNotification_spec
    (some (updateLastNotification "s1" statusPlanReady "plan ready" 105 none))
    110 60).1.mpr ⟨by decide,
      updateLastNotification "s1" statusPlanReady "plan ready" 105 none,
      rfl, by decide, by decide⟩

/-- C3: IsDuplicateMessage is false when the window is non-positive, no
prior notification record exists (or its timestamp is zero), the stored
last message is empty, or the prior notification is older than the
window; otherwise it reports equality of the normalized messages, and in
particular candidate "Done." matches stored "Done.." in the window. -/
theorem isDuplicateMessage_spec (stored : Option SessionState)
    (st : SessionState) (now window : Int) (msg : String) :
    (window ≤ 0 → isDuplicateMessage stored now msg window = false)
  ∧ isDuplicateMessage none now msg window = false
  ∧ (st.lastNotificationTime = 0 →
      isDuplicateMessage (some st) now msg window = false)
  ∧ (st.lastNotificationMessage = "" →
      isDuplicateMessage (some st) now msg window = false)
  ∧ (now - st.lastNotificationTime > window →
      isDuplicateMessage (some st) now msg window = false)
  ∧ (0 < window → st.lastNotificationTime ≠ 0 →
      st.lastNotificationMessage ≠ "" → now - st.lastNotificationTime ≤ window →
      isDuplicateMessage (some st) now msg window =
        (normalizeMessage msg == normalizeMessage st.lastNotificationMessage))
  ∧ isDuplicateMessage
      (some (updateLastNotification "id" statusTaskComplete "Done.." 1000 none))
      1010 "Done." 180 = true := by
  refine ⟨fun hw => ?_, ?_, fun hz => ?_, fun hm => ?_, fun hold => ?_,
    fun hw hz hm hrecent => ?_, by decide⟩
  · unfold isDuplicateMessage
    rw [if_pos hw]
  · unfold isDuplicateMessage
    by_cases hw : window ≤ 0
    · rw [if_pos hw]
    · rw [if_neg hw]
  · unfold isDuplicateMessage
    by_cases hw : window ≤ 0
    · rw [if_pos hw]
    · rw [if_neg hw]
      simp [hz]
  · unfold isDuplicateMessage
    by_cases hw : window ≤ 0
    · rw [if_pos hw]
    · rw [if_neg hw]
      simp [hm]
  · unfold isDuplicateMessage
    by_cases hw : window ≤ 0
    · rw [if_pos hw]
    · rw [if_neg hw]
      by_cases hzm : st.lastNotificationTime = 0 ∨ st.lastNotificationMessage = ""
      · simp [if_pos hzm]
      · simp only [if_neg hzm]
        rw [if_pos hold]
  · unfold isDuplicateMessage
    rw [if_neg (by omega)]
    simp only [if_neg (not_or_intro hz hm)]
    rw [if_neg (by omega)]

/-- Witness for isDuplicateMessage_spec at concrete inputs. -/
theorem isDuplicateMessage_spec_witness :
    isDuplicateMessage none 1000 "Done." 0 = false
  ∧ isDuplicateMessage
      (some (updateLastNotification "id" statusTaskComplete "done" 1000 none))
      1010 " DONE.. " 180
      = (normalizeMessage " DONE.. " == normalizeMessage "done") := by
  exact ⟨(isDuplicateMessage_spec none (emptySessionState "id") 1000 0
      "Done.").1 (by decide),
    (isDuplicateMessage_spec none
      (updateLastNotification "id" statusTaskComplete "done" 1000 none)
      1010 180 " DONE.. ").2.2.2.2.2.1 (by decide) (by decide) (by decide)
      (by decide)⟩

/-- C6: CheckEarlyDuplicate reports a duplicate iff the lock file exists
and its age is unreadable (-1) or under 2 seconds; an absent file or a
readable age of at least 2 seconds is not a duplicate. -/
theorem checkEarlyDuplicate_spec (lockFile : Option Int) (age : Int) :
    (checkEarlyDuplicate lockFile = true ↔
      ∃ a, lockFile = some a ∧ (a = -1 ∨ (0 ≤ a ∧ a < 2)))
  ∧ checkEarlyDuplicate none = false
  ∧ (2 ≤ age → checkEarlyDuplicate (some age) = false) := by
  refine ⟨?_, rfl, fun h => ?_⟩
  · cases lockFile with
    | none => simp [checkEarlyDuplicate]
    | some a =>
      simp only [checkEarlyDuplicate, Bool.or_eq_true, Bool.and_eq_true,
        beq_iff_eq, decide_eq_true_eq, Option.some.injEq]
      constructor
      · intro hc
        exact ⟨a, rfl, hc⟩
      · rintro ⟨a', rfl, hc⟩
        exact hc
  · simp only [checkEarlyDuplicate, Bool.or_eq_false_iff, Bool.and_eq_false_iff]
    constructor
    · simp only [beq_eq_false_iff_ne, ne_eq]
      omega
    · right
      simp only [decide_eq_false_iff_not, not_lt]
      omega

/-- Witness for checkEarlyDuplicate_spec at concrete inputs. -/
theorem checkEarlyDuplicate_spec_witness :
    checkEarlyDuplicate (some (-1)) = true
  ∧ checkEarlyDuplicate (some 5) = false :=
  ⟨(checkEarlyDuplicate_spec (some (-1)) 5).1.mpr ⟨-1, rfl, Or.inl rfl⟩,
    (checkEarlyDuplicate_spec (some (-1)) 5).2.2 (by decide)⟩

/-- C2: AcquireLock is the two-phase acquire: a successful atomic create
yields (true, nil) with one create call; an existing lock of readable
age under 2 seconds yields (false, nil) without removal; a stale lock is
force-removed and the create retried exactly once (two create calls in
total), propagating the filesystem error when the retry fails. -/
theorem acquireLock_two_phase (second : CreateResult) (age : Int) (e : String) :
    acquireLock .created age second = ⟨.ok true, 1, false⟩
  ∧ (0 ≤ age → age < 2 →
      acquireLock .alreadyExists age second = ⟨.ok false, 1, false⟩)
  ∧ (¬(0 ≤ age ∧ age < 2) →
        acquireLock .alreadyExists age .created = ⟨.ok true, 2, true⟩
      ∧ acquireLock .alreadyExists age (.ioError e)
          = ⟨.err ("failed to create lock file after cleanup: " ++ e), 2, true⟩
      ∧ (acquireLock .alreadyExists age second).createAttempts = 2) := by
  refine ⟨rfl, fun h1 h2 => ?_, fun hstale => ⟨?_, ?_, ?_⟩⟩
  · simp only [acquireLock]
    rw [if_pos ⟨h1, h2⟩]
  · simp only [acquireLock]
    rw [if_neg hstale]
  · simp only [acquireLock]
    rw [if_neg hstale]
  · simp only [acquireLock]
    rw [if_neg hstale]
    cases second <;> rfl

/-- Witness for acquireLock_two_phase at concrete inputs. -/
theorem acquireLock_two_phase_witness :
    acquireLock .alreadyExists 1 .created = ⟨.ok false, 1, false⟩
  ∧ acquireLock .alreadyExists 10 (.ioError "disk full")
      = ⟨.err ("failed to create lock file after cleanup: " ++ "disk full"),
         2, true⟩ :=
  ⟨(acquireLock_two_phase .created 1 "x").2.1 (by decide) (by decide),
    ((acquireLock_two_phase .created 10 "disk full").2.2 (by decide)).2.1⟩

/-- C7: AcquireContentLock uses the independently-keyed
sessionID + "content" lock file with a 5-second TTL: a successful create
acquires; a lock of readable age under 5 seconds yields (false, nil)
without removing the file; a lock aged 5 seconds or more is removed and
the create retried once. -/
theorem acquireContentLock_spec (second : CreateResult) (age : Int)
    (e sid : String) :
    contentLockFileName sid = lockFileName sid (some "content")
  ∧ contentLockFileName sid ≠ lockFileName sid none
  ∧ acquireContentLock .created age second = ⟨.ok true, 1, false⟩
  ∧ (0 ≤ age → age < 5 →
      acquireContentLock .alreadyExists age second = ⟨.ok false, 1, false⟩)
  ∧ (5 ≤ age →
        acquireContentLock .alreadyExists age .created = ⟨.ok true, 2, true⟩
      ∧ acquireContentLock .alreadyExists age (.ioError e)
          = ⟨.err ("failed to create content lock file after cleanup: " ++ e),
             2, true⟩) := by
  refine ⟨?_, fun hcol => ?_, rfl, fun h1 h2 => ?_, fun hstale => ⟨?_, ?_⟩⟩
  · show "claude-notification-" ++ sid ++ "-content.lock"
      = "claude-notification-" ++ sid ++ "-" ++ "content" ++ ".lock"
    rw [String.append_assoc ("claude-notification-" ++ sid) "-" "content",
      String.append_assoc ("claude-notification-" ++ sid)]
    rfl
  · have hlen := congrArg String.length hcol
    simp only [contentLockFileName, lockFileName, String.length_append] at hlen
    have h13 : ("-content.lock" : String).length = 13 := rfl
    have h5 : (".lock" : String).length = 5 := rfl
    rw [h13, h5] at hlen
    omega
  · simp only [acquireContentLock]
    rw [if_pos ⟨h1, h2⟩]
  · simp only [acquireContentLock]
    rw [if_neg (by omega)]
  · simp only [acquireContentLock]
    rw [if_neg (by omega)]

/-- Witness for acquireContentLock_spec at concrete inputs. -/
theorem acquireContentLock_spec_witness :
    acquireContentLock .alreadyExists 3 (.ioError "x") = ⟨.ok false, 1, false⟩
  ∧ acquireContentLock .alreadyExists 6 .created = ⟨.ok true, 2, true⟩ :=
  ⟨(acquireContentLock_spec (.ioError "x") 3 "e" "s").2.2.2.1 (by decide)
      (by decide),
    ((acquireContentLock_spec .created 6 "e" "s").2.2.2.2 (by decide)).1⟩

/-- C1: Send returns nil immediately when webhook delivery is disabled;
with a limiter present whose Allow() is false it returns the
rate-limit sentinel, and with a breaker present in the Open state it
returns the circuit-open sentinel — in both rejection cases nothing is
sent, no request is recorded and no delivery failure is recorded. -/
theorem send_admission_control (la : Option Bool) (bs : Option CBState)
    (pb : Option String) (url : String) (p : URLParseResult)
    (ir : Option WebhookErr) (ih : Bool) :
    send false la bs pb url p ir ih =
      ⟨none, false, false, false, false, false, false, false⟩
  ∧ (la = some false →
      send true la bs pb url p ir ih =
        ⟨some .rateLimitExceeded, true, false, false, false, false, false, false⟩)
  ∧ (la ≠ some false → bs = some .opn →
      send true la bs pb url p ir ih =
        ⟨some .circuitOpen, false, true, false, false, false, false, false⟩) := by
  refine ⟨rfl, fun h => ?_, fun h1 h2 => ?_⟩
  · simp only [send]
    rw [if_neg (by simp), if_pos h]
  · simp only [send]
    rw [if_neg (by simp), if_neg h1, if_pos h2]

/-- Witness for send_admission_control at concrete inputs. -/
theorem send_admission_control_witness :
    send true (some false) none none "u" .failure none false =
      ⟨some .rateLimitExceeded, true, false, false, false, false, false, false⟩
  ∧ send true (some true) (some .opn) none "u" .failure none false =
      ⟨some .circuitOpen, false, true, false, false, false, false, false⟩ :=
  ⟨(send_admission_control (some false) none none "u" .failure none false).2.1
      rfl,
    (send_admission_control (some true) (some .opn) none "u" .failure none
      false).2.2 (by decide) rfl⟩

/-- C9: validateURL accepts exactly the non-empty, parsable URLs with
scheme http or https and a non-empty host; whenever it rejects, an
admitted Send returns the wrapped validation error without invoking the
retry operation and without issuing any HTTP request. -/
theorem validateURL_rejects_before_network (raw : String) (p : URLParseResult)
    (e : String) (la : Option Bool) (bs : Option CBState)
    (ir : Option WebhookErr) (ih : Bool) :
    (validateURL raw p = none ↔
      raw ≠ "" ∧ ∃ scheme host, p = .parsed scheme host ∧
        (scheme = "http" ∨ scheme = "https") ∧ host ≠ "")
  ∧ (validateURL raw p = some e → la ≠ some false → bs ≠ some .opn →
      (send true la bs none raw p ir ih).result
          = some (.errMsg ("invalid webhook URL: " ++ e))
      ∧ (send true la bs none raw p ir ih).retryInvoked = false
      ∧ (send true la bs none raw p ir ih).httpAttempted = false) := by
  refine ⟨?_, fun hv h1 h2 => ?_⟩
  · unfold validateURL
    by_cases hraw : raw = ""
    · simp [hraw]
    · rw [if_neg hraw]
      cases p with
      | failure => simp [hraw]
      | parsed scheme host =>
        dsimp only
        by_cases hs : scheme ≠ "http" ∧ scheme ≠ "https"
        · rw [if_pos hs]
          constructor
          · intro hc
            exact absurd hc (by simp)
          · rintro ⟨-, s', h', hp, hor, -⟩
            obtain ⟨rfl, rfl⟩ := URLParseResult.parsed.inj hp
            exact (hor.elim hs.1 hs.2).elim
        · rw [if_neg hs]
          by_cases hh : host = ""
          · rw [if_pos hh]
            constructor
            · intro hc
              exact absurd hc (by simp)
            · rintro ⟨-, s', h', hp, -, hne⟩
              obtain ⟨rfl, rfl⟩ := URLParseResult.parsed.inj hp
              exact absurd hh hne
          · rw [if_neg hh]
            constructor
            · rintro -
              refine ⟨hraw, scheme, host, rfl, ?_, hh⟩
              rcases not_and_or.mp hs with h | h
              · exact Or.inl (not_not.mp h)
              · exact Or.inr (not_not.mp h)
            · rintro -
              rfl
  · simp only [send]
    rw [if_neg (by simp), if_neg h1, if_neg h2]
    simp only [sendWithRetryAndCircuitBreaker]
    rw [hv]
    exact ⟨rfl, rfl, rfl⟩

/-- Witness for validateURL_rejects_before_network at concrete inputs. -/
theorem validateURL_rejects_before_network_witness :
    validateURL "ftp://host" (.parsed "ftp" "host")
      = some "URL must use http or https scheme"
  ∧ (send true none none none "ftp://host" (.parsed "ftp" "host") none
      true).retryInvoked = false
  ∧ validateURL "https://host/hook" (.parsed "https" "host") = none := by
  refine ⟨by decide, ?_, ?_⟩
  · exact ((validateURL_rejects_before_network "ftp://host"
      (.parsed "ftp" "host") "URL must use http or https scheme" none none
      none true).2 (by decide) (by decide) (by decide)).2.1
  · exact (validateURL_rejects_before_network "https://host/hook"
      (.parsed "https" "host") "x" none none none true).1.mpr
      ⟨by decide, "https", "host", rfl, Or.inr rfl, by decide⟩
